import Mathlib

/-!
Verification of the ABVME asset-bundle viewer/editor core.

Shallow embedding of the Python sources:
* `src/models/asset_model.py` — `AssetInfo` (preview cache, edit dispatch, export naming)
* `src/models/core_model.py` — `ABVMECore.load_files` (header check, trim-retry loop)
* `src/services/save_worker.py` — `SaveWorker._save_all_files` (batch save)
* `src/viewmodels/main_viewmodel.py` — busy-guards on load/edit/save submission
* `src/views/asset_table_widget.py` — `apply_filter` row visibility
* `src/utilities/single_instance.py` — IPC payload handling

Pure logic is translated directly; external effects (PIL image loading, UnityPy
parsing, disk writes, UTF-8/JSON decoding) are abstracted as function parameters
of the embedded operations, so every definition stays executable.
-/

set_option autoImplicit false

namespace ABVME

/-! ### Export naming (`AssetInfo.export`, asset_model.py lines 258-312) -/

/-- Python `str.split(sep)` for a one-character separator, over the character
list of the string: splitting at every occurrence, keeping empty pieces. -/
def splitChar (sep : Char) : List Char → List (List Char)
  | [] => [[]]
  | a :: as =>
    let r := splitChar sep as
    if a = sep then [] :: r
    else (a :: r.headD []) :: r.tail

/-- Python `str.split(sep)` on `String`s. -/
def pySplit (sep : Char) (s : String) : List String :=
  (splitChar sep s.data).map String.mk

/-- `pathlib.Path(p).name`: the final path segment, with empty segments
(repeated or trailing slashes) dropped; empty string when there is none. -/
def pathFinalSegment (p : String) : String :=
  ((((pySplit '/' p)).filter (fun seg => seg ≠ "")).getLast?).getD ""

/-- The stem/extension pair produced by `AssetInfo.export`. -/
structure ExportNaming where
  file_name : String
  file_extension : String
  deriving DecidableEq, Repr

/-- Name-choice and dot-splitting logic of `AssetInfo.export` (asset_model.py
lines 274-294), translated line by line:
`full_name` is the explicit `output_name` if truthy, else the final segment of a
non-empty `container`, else `name` (flagging that the path id must be appended);
then `parts = full_name.split('.')` (split at every dot), the stem is `parts[0]`
(plus `"_" + path_id` when flagged), and the extension is `"." + parts[1]` when
there is more than one part, else `""`. -/
def exportNaming (output_name : Option String) (container name path_id : String) :
    ExportNaming :=
  let truthyOut : Bool := match output_name with
    | some o => o ≠ ""
    | none => false
  let pick : String × Bool :=
    if truthyOut then (output_name.getD "", false)
    else if container ≠ "" then (pathFinalSegment container, false)
    else (name, true)
  let full_name := pick.1
  let need_to_add_path_id := pick.2
  let parts := pySplit '.' full_name
  let base := parts.headD ""
  let file_name := if need_to_add_path_id then base ++ "_" ++ path_id else base
  let file_extension :=
    if parts.length > 1 then "." ++ (parts.getD 1 "") else ""
  ⟨file_name, file_extension⟩

/-! ### Submission busy-guards (`MainViewModel`, main_viewmodel.py) -/

/-- Python return value of a viewmodel submit method: either the implicit
`None` or an explicit boolean. -/
inductive PyRet where
  | none
  | bool (b : Bool)
  deriving DecidableEq, Repr

/-- Worker/in-flight state of `MainViewModel` relevant to submission guards:
`core_loaded` models `self.core is not None`, the three `*_running` flags model
`self.<x>_worker and self.<x>_worker.isRunning()`, and `has_changed` models
`self.has_changed_files()`. -/
structure VMState where
  core_loaded : Bool
  loader_running : Bool
  edit_running : Bool
  save_running : Bool
  has_changed : Bool
  deriving DecidableEq, Repr

/-- Outcome of a submit call: the Python return value, whether a new worker
thread was created and started, and the resulting viewmodel state. -/
structure SubmitResult where
  ret : PyRet
  workerStarted : Bool
  state : VMState
  deriving DecidableEq, Repr

/-- `MainViewModel.load_files_from_paths` (main_viewmodel.py lines 55-72):
filters the paths to existing files; with no valid file it emits a warning and
returns; otherwise it unconditionally creates and starts a new `LoaderWorker`.
There is no check of `loader_running`, and the method returns `None` on every
path. `isFile` abstracts `Path(path).is_file()`. -/
def load_files_from_paths (s : VMState) (isFile : String → Bool)
    (file_paths : List String) : SubmitResult :=
  let valid_files := file_paths.filter isFile
  if valid_files.isEmpty then ⟨.none, false, s⟩
  else ⟨.none, true, { s with loader_running := true }⟩

/-- `MainViewModel.edit_asset` (main_viewmodel.py lines 108-127): if an edit
worker is running, emits a busy status message and returns `False`; otherwise
creates and starts a new `EditWorker` and returns `True`. -/
def edit_asset (s : VMState) : SubmitResult :=
  if s.edit_running then ⟨.bool false, false, s⟩
  else ⟨.bool true, true, { s with edit_running := true }⟩

/-- `MainViewModel.save_all_files` (main_viewmodel.py lines 286-315): returns
`False` when no core is loaded, when a save worker is already running, or when
no file is changed; otherwise creates and starts a new `SaveWorker` and returns
`True`. -/
def save_all_files (s : VMState) : SubmitResult :=
  if !s.core_loaded then ⟨.bool false, false, s⟩
  else if s.save_running then ⟨.bool false, false, s⟩
  else if !s.has_changed then ⟨.bool false, false, s⟩
  else ⟨.bool true, true, { s with save_running := true }⟩

/-! ### Batch save (`SaveWorker._save_all_files` and `run`, save_worker.py) -/

/-- A loaded bundle file entry of `core._env.files`: the dict key (path) and
the file object's `is_changed` attribute, `none` when the object has no such
attribute (the `hasattr` test fails, e.g. an `EndianBinaryReader`). -/
structure BundleFile where
  path : String
  is_changed : Option Bool
  deriving DecidableEq, Repr

/-- Result of a `SaveWorker` run: the output paths written to disk in order,
the arguments of the single `finished` signal emission, and the payload of the
`error` signal when it was emitted. -/
structure SaveRunResult where
  written : List String
  success : Bool
  message : String
  errorEmitted : Option String
  deriving DecidableEq, Repr

/-- The write loop of `_save_all_files` (save_worker.py lines 155-165): the
changed files are written one by one; `write` abstracts
`core._save_fileobj` and returns `some errMsg` when the write raises.  The
first raised exception propagates out of the loop, so later files are not
written.  Returns the successfully written paths and the first error. -/
def saveWriteLoop (write : String → Option String) :
    List String → List String × Option String
  | [] => ([], Option.none)
  | p :: rest =>
    match write p with
    | Option.none =>
      let r := saveWriteLoop write rest
      (p :: r.1, r.2)
    | some e => ([], some e)

/-- `SaveWorker.run` dispatching to `_save_all_files` (save_worker.py lines
56-72 and 132-174): collects the entries whose file object has a truthy
`is_changed`, finishes successfully with a "No changed files" message when
there are none, otherwise writes them in order.  A write failure propagates
(the `except` in `_save_all_files` logs and re-raises), and `run` then emits
`error` and `finished(False, ...)` with the exception text. -/
def save_all_run (files : List BundleFile) (write : String → Option String) :
    SaveRunResult :=
  let changed_files := files.filter (fun f => f.is_changed = some true)
  if changed_files.isEmpty then
    ⟨[], true, "No changed files to save", Option.none⟩
  else
    let r := saveWriteLoop write (changed_files.map (fun f => f.path))
    match r.2 with
    | Option.none =>
      ⟨r.1, true, "Successfully saved " ++ toString r.1.length ++ " file(s)",
        Option.none⟩
    | some e =>
      let msg := "Save operation failed: " ++ e
      ⟨r.1, false, msg, some msg⟩

/-! ### Loading (`ABVMECore.load_files`, core_model.py lines 42-117) -/

/-- An input file as `load_files` sees it: its path, its raw bytes, and the
asset objects the parsing library would yield for it once loaded (the
`env.objects` contribution used by `get_available_assets`). -/
structure InFile where
  path : String
  content : List Nat
  objects : List String
  deriving DecidableEq, Repr

/-- The bytes of the ASCII string "UnityFS". -/
def unityFSHeader : List Nat := [85, 110, 105, 116, 121, 70, 83]

/-- The byte string passed to the parser at trim level `t`: the full content
for `t = 0` (`env.load_file(file)`), else `file_byte[:-t]`
(`file_byte[:-current_trim]`). -/
def trimmedBytes (content : List Nat) (t : Nat) : List Nat :=
  content.take (content.length - t)

/-- The retry loop of `load_files` (core_model.py lines 76-90), starting at
trim level `t` with `fuel` remaining iterations of `for i in range(max_try)`:
each attempt parses the trimmed bytes (`parse` abstracts `env.load_file`
succeeding), stops at the first success, else trims one more byte.  Returns
the number of parse attempts made and whether the file was loaded. -/
def loadRetryLoop (parse : List Nat → Bool) (content : List Nat) :
    Nat → Nat → Nat × Bool
  | _, 0 => (0, false)
  | t, fuel + 1 =>
    if parse (trimmedBytes content t) then (1, true)
    else
      let r := loadRetryLoop parse content (t + 1) fuel
      (r.1 + 1, r.2)

/-- Per-file behaviour of `load_files` (core_model.py lines 68-90): a file
whose content is at least 8 bytes long and whose first 7 bytes are not
"UnityFS" is skipped (no parse attempt); otherwise the trim-retry loop runs
with `max_try = 100`.  Returns (number of parse attempts, loaded flag). -/
def loadOneFile (parse : List Nat → Bool) (f : InFile) : Nat × Bool :=
  if f.content.length ≥ 8 ∧ f.content.take 7 ≠ unityFSHeader then (0, false)
  else loadRetryLoop parse f.content 0 100

/-- `ABVMECore.load_files` followed by `get_available_assets` (core_model.py
lines 42-117): every file is processed independently (exceptions from parsing
are caught inside the retry loop, so none propagates), and the returned
records are the objects of the successfully loaded files, in file order.
`parse` abstracts the parsing library, keyed by the file's path so distinct
files may parse differently. -/
def load_files (parse : String → List Nat → Bool) (file_list : List InFile) :
    List String :=
  (file_list.filter (fun f => (loadOneFile (parse f.path) f).2)).flatMap
    (fun f => f.objects)

/-! ### Row filtering (`AssetTableWidget.apply_filter`, asset_table_widget.py
lines 172-226) -/

/-- Checks whether `needle` occurs as a contiguous substring of `hay`
(Python's `in` on strings), over character lists. -/
def listStartsWith : List Char → List Char → Bool
  | _, [] => true
  | [], _ :: _ => false
  | a :: as, b :: bs => a == b && listStartsWith as bs

/-- Python `needle in hay` for strings. -/
def strContainsSub (hay needle : String) : Bool :=
  (hay.data.tails).any (fun t => listStartsWith t needle.data)

/-- Python `s.lower()` (restricted to the ASCII mapping of `Char.toLower`). -/
def strLower (s : String) : String :=
  String.mk (s.data.map Char.toLower)

/-- A table cell: its displayed `text` and the optional `UserRole` data
(`item.data(Qt.ItemDataRole.UserRole)`), e.g. the full source path behind a
displayed file name. -/
structure Cell where
  text : String
  tag : Option String
  deriving DecidableEq, Repr

/-- A column filter held in `FilterHeader.active_filters`: either a checkbox
(set) filter carrying the allowed values, or a text filter carrying the search
text and the match-case flag. -/
inductive FilterVal where
  | setF (allowed : List String)
  | textF (filter_text : String) (use_match_case : Bool)
  deriving DecidableEq, Repr

/-- The per-column test inside the row loop of `apply_filter` (lines 188-224):
a missing cell hides the row; a checkbox filter hides the row when `allowed`
is empty or when the cell's check value (the `UserRole` tag when present, else
the displayed text) is not in `allowed`; a text filter passes when the search
text is empty, else requires (case-folded) substring containment in the
displayed text. -/
def cellPasses (cell : Option Cell) (val : FilterVal) : Bool :=
  match cell with
  | Option.none => false
  | some c =>
    match val with
    | .setF allowed =>
      if allowed.isEmpty then false
      else (c.tag.getD c.text) ∈ allowed
    | .textF filter_text use_match_case =>
      if filter_text = "" then true
      else if use_match_case then strContainsSub c.text filter_text
      else strContainsSub (strLower c.text) (strLower filter_text)

/-- Row visibility computed by `apply_filter` for one row: the row is shown
iff every entry of `active_filters` passes on that row's cell for its column
(`should_show` stays `True` through the whole inner loop).  `row` maps a
column index to `table.item(row, col)`. -/
def shouldShow (row : Nat → Option Cell) (active_filters : List (Nat × FilterVal)) :
    Bool :=
  active_filters.all (fun cv => cellPasses (row cv.1) cv.2)

/-! ### Asset records (`AssetInfo`, asset_model.py) -/

/-- The asset kinds (`ClassIDType`) distinguished by `AssetInfo`'s dispatch;
every other UnityPy class id is collapsed into `other` with its numeric id. -/
inductive ClassIDType where
  | texture2D
  | textAsset
  | mesh
  | other (id : Nat)
  deriving DecidableEq, Repr

/-- `AVAILABLE_ASSETS_FOR_EDIT` (asset_model.py lines 19-23): only
`Texture2D` and `TextAsset` (the `Mesh` entry is commented out). -/
def availableAssetsForEdit : List ClassIDType := [.texture2D, .textAsset]

/-- `ResultStatus` (asset_model.py lines 31-36). -/
inductive ResultStatus where
  | complete
  | error
  | notImplemented
  | unsupported
  deriving DecidableEq, Repr

/-- The state of an `AssetInfo`: the asset kind, the `is_editable` flag
computed in `__init__`, the payload currently held by the underlying object
(what `self._obj.read()` would yield), the `_readed_data` cache, the
`_preview_data` cache (modelled by the payload the preview was rendered
from), the `is_changed` dirty flag, and an instrumentation counter of how
many times `self._obj.read()` was actually called. -/
structure AssetRec where
  obj_type : ClassIDType
  is_editable : Bool
  objPayload : String
  readed : Option String
  preview : Option String
  is_changed : Bool
  decodes : Nat
  deriving DecidableEq, Repr

/-- `AssetInfo.__init__` (asset_model.py lines 87-98): caches start empty,
`is_changed` starts false, and `is_editable` is `obj_type in
AVAILABLE_ASSETS_FOR_EDIT`. -/
def mkAssetRec (t : ClassIDType) (payload : String) : AssetRec :=
  ⟨t, t ∈ availableAssetsForEdit, payload, Option.none, Option.none, false, 0⟩

/-- `AssetInfo._get_readed_data` (asset_model.py lines 100-106): returns the
cached data when present, else calls `self._obj.read()` once and caches the
result. -/
def getReadedData (s : AssetRec) : String × AssetRec :=
  match s.readed with
  | some d => (d, s)
  | Option.none =>
    (s.objPayload,
      { s with readed := some s.objPayload, decodes := s.decodes + 1 })

/-- `AssetInfo.get_preview` (asset_model.py lines 108-160), with the
kind-specific rendering abstracted by `render`: returns the cached
`_preview_data` when present, else reads the data (through the
`_get_readed_data` cache) and caches the rendered preview.  Unsupported kinds
also cache a (status-`UNSUPPORTED`) result, so the cache behaviour is uniform;
the model keeps the payload the preview was built from. -/
def get_preview (render : ClassIDType → String → String) (s : AssetRec) :
    String × AssetRec :=
  match s.preview with
  | some p => (p, s)
  | Option.none =>
    let r := getReadedData s
    let pv := render s.obj_type r.1
    (pv, { r.2 with preview := some pv })

/-- `AssetInfo.edit_data` (asset_model.py lines 162-256): first reads the data
(populating the `_readed_data` cache), then rejects non-editable kinds with
`UNSUPPORTED` without touching `is_changed`; for `Texture2D`/`TextAsset`,
`loadOk` abstracts whether preparing the replacement data (PIL image load /
text decode plus the in-place `save()`) succeeds — on success the underlying
object is mutated to `newData`, `is_changed` is set, and (because
`result.is_success`) the `_preview_data` cache is cleared; on failure an
`ERROR` result is returned and neither `is_changed` nor the preview cache is
touched.  The `Mesh` branch returns `NOT_IMPLEMENTED` and the trailing `else`
returns `UNSUPPORTED`; both are unreachable when `is_editable` agrees with
`obj_type` as `__init__` sets it. -/
def edit_data (s : AssetRec) (newData : String) (loadOk : Bool) :
    ResultStatus × AssetRec :=
  let s1 := (getReadedData s).2
  if !s.is_editable then (.unsupported, s1)
  else
    match s.obj_type with
    | .texture2D =>
      if loadOk then
        (.complete,
          { s1 with objPayload := newData, readed := some newData,
                    is_changed := true, preview := Option.none })
      else (.error, s1)
    | .textAsset =>
      if loadOk then
        (.complete,
          { s1 with objPayload := newData, readed := some newData,
                    is_changed := true, preview := Option.none })
      else (.error, s1)
    | .mesh => (.notImplemented, s1)
    | .other _ => (.unsupported, s1)

/-! ### Single-instance IPC (`SingleInstance._handle_connection`,
single_instance.py lines 63-79) -/

/-- A JSON value as `json.loads` produces it. -/
inductive Json where
  | null
  | bool (b : Bool)
  | num (n : Int)
  | str (s : String)
  | arr (xs : List Json)
  | obj (fields : List (String × Json))

/-- Result of handling one pending connection: the payload of the
`messageReceived` emission (if any) and whether the listener is still
accepting further connections afterwards (the handler returns normally in
every case; nothing closes the server). -/
structure HandleResult where
  emitted : Option (List Json)
  listenerRunning : Bool

/-- `SingleInstance._handle_connection` (single_instance.py lines 63-79),
with the byte-to-text and text-to-JSON decoding abstracted: `decodeUtf8`
models `bytes.decode('utf-8')` (`none` = `UnicodeDecodeError`), `parseJson`
models `json.loads` (`none` = `JSONDecodeError`).  When a socket is pending
and data arrives, a decode failure or a non-list JSON value degrades to the
empty path list; the event is always emitted and the handler returns, leaving
the listener running. -/
def handle_connection (decodeUtf8 : List Nat → Option String)
    (parseJson : String → Option Json) (socketPending : Bool)
    (dataReady : Bool) (payload : List Nat) : HandleResult :=
  if socketPending then
    let file_paths :=
      if dataReady then
        match decodeUtf8 payload with
        | Option.none => []
        | some s =>
          match parseJson s with
          | Option.none => []
          | some (Json.arr xs) => xs
          | some _ => []
      else []
    ⟨some file_paths, true⟩
  else ⟨Option.none, true⟩

/-! ### Helper lemmas -/

theorem saveWriteLoop_all_ok (write : String → Option String) :
    ∀ l : List String, (∀ p ∈ l, write p = Option.none) →
      saveWriteLoop write l = (l, Option.none)
  | [], _ => rfl
  | p :: rest, h => by
    have hp : write p = Option.none := h p (List.mem_cons_self p rest)
    have ih := saveWriteLoop_all_ok write rest
      (fun q hq => h q (List.mem_cons_of_mem p hq))
    simp [saveWriteLoop, hp, ih]

theorem saveWriteLoop_first_err (write : String → Option String) (e : String)
    (bad : String) (post : List String) (hbad : write bad = some e) :
    ∀ pre : List String, (∀ p ∈ pre, write p = Option.none) →
      saveWriteLoop write (pre ++ bad :: post) = (pre, some e)
  | [], _ => by simp [saveWriteLoop, hbad]
  | p :: pre, h => by
    have hp : write p = Option.none := h p (List.mem_cons_self p pre)
    have ih := saveWriteLoop_first_err write e bad post hbad pre
      (fun q hq => h q (List.mem_cons_of_mem p hq))
    simp [saveWriteLoop, hp, ih]

theorem loadRetryLoop_all_fail (parse : List Nat → Bool) (content : List Nat) :
    ∀ fuel t, (∀ i, i < fuel → parse (trimmedBytes content (t + i)) = false) →
      loadRetryLoop parse content t fuel = (fuel, false)
  | 0, _, _ => rfl
  | fuel + 1, t, h => by
    have h0 : parse (trimmedBytes content t) = false := by
      have := h 0 (Nat.succ_pos fuel)
      simpa using this
    have ih := loadRetryLoop_all_fail parse content fuel (t + 1)
      (fun i hi => by
        have := h (i + 1) (Nat.succ_lt_succ hi)
        simpa [Nat.add_assoc, Nat.add_comm, Nat.add_left_comm] using this)
    simp [loadRetryLoop, h0, ih]

theorem loadRetryLoop_first_success (parse : List Nat → Bool)
    (content : List Nat) (t fuel : Nat)
    (h : parse (trimmedBytes content t) = true) :
    loadRetryLoop parse content t (fuel + 1) = (1, true) := by
  simp [loadRetryLoop, h]

theorem loadRetryLoop_attempts_pos (parse : List Nat → Bool)
    (content : List Nat) (t fuel : Nat) :
    1 ≤ (loadRetryLoop parse content t (fuel + 1)).1 := by
  by_cases h : parse (trimmedBytes content t) = true
  · simp [loadRetryLoop, h]
  · simp only [Bool.not_eq_true] at h
    simp [loadRetryLoop, h]

theorem getReadedData_is_changed (s : AssetRec) :
    (getReadedData s).2.is_changed = s.is_changed := by
  cases h : s.readed <;> simp [getReadedData, h]

theorem getReadedData_is_editable (s : AssetRec) :
    (getReadedData s).2.is_editable = s.is_editable := by
  cases h : s.readed <;> simp [getReadedData, h]

/-! ### Claim theorems -/

/-- C1 (code bug): the export naming logic does not keep everything from the
first dot onward as the extension.  `split('.')` cuts at every dot and only
`parts[1]` is kept, so the chosen name "archive.tar.gz" yields extension
".tar" — the ".gz" part is silently dropped — while the spec (and the
source's own "Split at first dot only" comment) require ".tar.gz".  The stem
"archive" and the "noext" behaviour do match the spec. -/
theorem exportNaming_first_suffix_only :
    exportNaming (some "archive.tar.gz") "" "" "123" =
      ⟨"archive", ".tar"⟩ ∧
    (exportNaming (some "archive.tar.gz") "" "" "123").file_extension ≠
      ".tar.gz" ∧
    exportNaming Option.none "" "noext" "77" = ⟨"noext_77", ""⟩ := by
  decide

/-- C2 (counterexample): submitting a Load while a load is already running is
not rejected: with the loader busy, `load_files_from_paths` on a non-empty
valid file list still creates and starts a new `LoaderWorker`, and it returns
`None`, not `False`. -/
theorem load_submit_unguarded_cex :
    (load_files_from_paths ⟨true, true, true, true, true⟩ (fun _ => true)
      ["a.bundle"]).workerStarted = true ∧
    (load_files_from_paths ⟨true, true, true, true, true⟩ (fun _ => true)
      ["a.bundle"]).ret ≠ PyRet.bool false := by
  decide

/-- C2 (amended): the busy-rejection holds for the Edit and Save categories —
submitting while that category is running returns `False` synchronously,
starts no worker, and leaves the state unchanged (nothing is queued) — but
the Load category has no such guard: with any non-empty valid file list,
`load_files_from_paths` always starts a new loader worker and returns `None`,
even while a load is running. -/
theorem busy_guard_edit_save_but_not_load (s : VMState)
    (isFile : String → Bool) (paths : List String) :
    (s.edit_running = true →
      edit_asset s = ⟨PyRet.bool false, false, s⟩) ∧
    (s.core_loaded = true → s.save_running = true →
      save_all_files s = ⟨PyRet.bool false, false, s⟩) ∧
    ((paths.filter isFile) ≠ [] →
      (load_files_from_paths s isFile paths).workerStarted = true ∧
      (load_files_from_paths s isFile paths).ret = PyRet.none) := by
  refine ⟨fun he => ?_, fun hc hs => ?_, fun hp => ?_⟩
  · simp [edit_asset, he]
  · simp [save_all_files, hc, hs]
  · have : (paths.filter isFile).isEmpty = false := by
      simpa [List.isEmpty_iff] using hp
    exact ⟨by simp [load_files_from_paths, this],
      by simp [load_files_from_paths, this]⟩

/-- C2 (witness): the amended guarantee instantiated on the all-busy state. -/
theorem busy_guard_edit_save_but_not_load_witness :
    edit_asset ⟨true, true, true, true, true⟩ =
      ⟨PyRet.bool false, false, ⟨true, true, true, true, true⟩⟩ ∧
    save_all_files ⟨true, true, true, true, true⟩ =
      ⟨PyRet.bool false, false, ⟨true, true, true, true, true⟩⟩ ∧
    (load_files_from_paths ⟨true, true, true, true, true⟩ (fun _ => true)
      ["a.bundle"]).workerStarted = true :=
  ⟨(busy_guard_edit_save_but_not_load ⟨true, true, true, true, true⟩
      (fun _ => true) ["a.bundle"]).1 rfl,
   (busy_guard_edit_save_but_not_load ⟨true, true, true, true, true⟩
      (fun _ => true) ["a.bundle"]).2.1 rfl rfl,
   ((busy_guard_edit_save_but_not_load ⟨true, true, true, true, true⟩
      (fun _ => true) ["a.bundle"]).2.2 (by decide)).1⟩

/-- C3 (counterexample): a failed write aborts the remaining writes of a
batch save.  With two changed files where only the first write fails, the
second file — whose write would succeed — is never written, the run finishes
with `success = False`, and the message carries the exception text, not
succeeded/failed counts. -/
theorem save_abort_on_failure_cex :
    (fun p => if p = "a" then some "boom" else Option.none) "b" =
      Option.none ∧
    "b" ∉ (save_all_run [⟨"a", some true⟩, ⟨"b", some true⟩]
      (fun p => if p = "a" then some "boom" else Option.none)).written ∧
    (save_all_run [⟨"a", some true⟩, ⟨"b", some true⟩]
      (fun p => if p = "a" then some "boom" else Option.none)).success =
      false ∧
    (save_all_run [⟨"a", some true⟩, ⟨"b", some true⟩]
      (fun p => if p = "a" then some "boom" else Option.none)).message =
      "Save operation failed: boom" := by
  decide

/-- C3 (amended): a batch save writes the changed files one by one in order,
but only until the first failure: when every write succeeds the run writes
exactly the changed files and finishes successfully reporting their count;
when a write fails, exactly the files before the failing one have been
written, the remaining writes are aborted, and the run finishes with a
failure outcome carrying the exception text (also emitted on the error
signal). -/
theorem save_all_abort_semantics (files : List BundleFile)
    (write : String → Option String) :
    ((files.filter (fun f => f.is_changed = some true)).map
        (fun f => f.path) ≠ [] →
      ((∀ p ∈ (files.filter (fun f => f.is_changed = some true)).map
          (fun f => f.path), write p = Option.none) →
        save_all_run files write =
          ⟨(files.filter (fun f => f.is_changed = some true)).map
              (fun f => f.path), true,
            "Successfully saved " ++
              toString ((files.filter
                (fun f => f.is_changed = some true)).length) ++ " file(s)",
            Option.none⟩) ∧
      (∀ pre bad post e,
        (files.filter (fun f => f.is_changed = some true)).map
            (fun f => f.path) = pre ++ bad :: post →
        (∀ p ∈ pre, write p = Option.none) → write bad = some e →
        save_all_run files write =
          ⟨pre, false, "Save operation failed: " ++ e,
            some ("Save operation failed: " ++ e)⟩)) := by
  intro hne
  have hne' : (files.filter (fun f => f.is_changed = some true)).isEmpty =
      false := by
    rcases h : files.filter (fun f => f.is_changed = some true) with _ | ⟨f, fs⟩
    · exact absurd (by simp [h]) hne
    · simp [h]
  constructor
  · intro hok
    have := saveWriteLoop_all_ok write
      ((files.filter (fun f => f.is_changed = some true)).map
        (fun f => f.path)) hok
    simp [save_all_run, hne', this]
  · intro pre bad post e hsplit hpre hbad
    have := saveWriteLoop_first_err write e bad post hbad pre hpre
    simp [save_all_run, hne', hsplit, this]

/-- C3 (witness): the amended semantics on two concrete runs — one where both
writes succeed, one where the first write fails. -/
theorem save_all_abort_semantics_witness :
    save_all_run [⟨"a", some true⟩, ⟨"b", some true⟩]
      (fun _ => Option.none) =
      ⟨["a", "b"], true, "Successfully saved 2 file(s)", Option.none⟩ ∧
    save_all_run [⟨"a", some true⟩, ⟨"b", some true⟩]
      (fun p => if p = "a" then some "boom" else Option.none) =
      ⟨[], false, "Save operation failed: boom",
        some ("Save operation failed: boom")⟩ :=
  ⟨by
    have h := (save_all_abort_semantics
      [⟨"a", some true⟩, ⟨"b", some true⟩] (fun _ => Option.none)
      (by decide)).1 (by decide)
    simpa using h,
   by
    have h := (save_all_abort_semantics
      [⟨"a", some true⟩, ⟨"b", some true⟩]
      (fun p => if p = "a" then some "boom" else Option.none)
      (by decide)).2 [] "a" ["b"] "boom" (by decide) (by decide) (by decide)
    simpa using h⟩

/-- C4: with one file that fails to parse at every trim attempt of the
bounded (100-attempt) retry loop and one valid file yielding 3 objects, the
load returns exactly the valid file's 3 records; the malformed file
contributes nothing and the overall load does not fail (every parse failure
is caught inside the retry loop, so `load_files` is total and returns
normally). -/
theorem load_tolerates_malformed_file (parse : String → List Nat → Bool)
    (A B : InFile)
    (hA : ∀ t, t < 100 → parse A.path (trimmedBytes A.content t) = false)
    (hBhdr : ¬(B.content.length ≥ 8 ∧ B.content.take 7 ≠ unityFSHeader))
    (hB : parse B.path B.content = true)
    (hB3 : B.objects.length = 3) :
    load_files parse [A, B] = B.objects ∧
    (load_files parse [A, B]).length = 3 := by
  have hAload : (loadOneFile (parse A.path) A).2 = false := by
    by_cases hhdr : A.content.length ≥ 8 ∧ A.content.take 7 ≠ unityFSHeader
    · simp only [loadOneFile, if_pos hhdr]
    · have hall := loadRetryLoop_all_fail (parse A.path) A.content 100 0
        (fun i hi => by simpa using hA i hi)
      simp only [loadOneFile, if_neg hhdr, hall]
  have htrim0 : trimmedBytes B.content 0 = B.content := by
    simp [trimmedBytes]
  have hBload : (loadOneFile (parse B.path) B).2 = true := by
    have h1 : loadRetryLoop (parse B.path) B.content 0 100 = (1, true) :=
      loadRetryLoop_first_success (parse B.path) B.content 0 99
        (by rw [htrim0]; exact hB)
    simp only [loadOneFile, if_neg hBhdr, h1]
  refine ⟨?_, ?_⟩
  · simp [load_files, hAload, hBload]
  · simp [load_files, hAload, hBload, hB3]

/-- C4 (witness): a concrete malformed archive (parser rejects it at every
trim) next to a valid archive with objects o1, o2, o3. -/
theorem load_tolerates_malformed_file_witness :
    load_files (fun p _ => p == "good")
      [⟨"bad", unityFSHeader ++ [9], ["a1"]⟩,
       ⟨"good", unityFSHeader ++ [0], ["o1", "o2", "o3"]⟩] =
      ["o1", "o2", "o3"] :=
  (load_tolerates_malformed_file (fun p _ => p == "good")
    ⟨"bad", unityFSHeader ++ [9], ["a1"]⟩
    ⟨"good", unityFSHeader ++ [0], ["o1", "o2", "o3"]⟩
    (by decide) (by decide) (by decide) (by decide)).1

/-- C5: row visibility under `apply_filter` is the conjunction over the
actively filtered columns (columns absent from `active_filters` impose no
constraint); for a set-filter column the row passes iff its underlying tag
value (the `UserRole` data, e.g. the full source path, falling back to the
displayed text only when no tag is stored) is a member of the allowed set;
and a set filter with an empty allowed set hides the row no matter what the
other columns' filters say. -/
theorem filter_conjunction_and_set_membership (row : Nat → Option Cell)
    (fs : List (Nat × FilterVal)) :
    (shouldShow row fs = true ↔
      ∀ cv ∈ fs, cellPasses (row cv.1) cv.2 = true) ∧
    (∀ col c allowed, row col = some c →
      (cellPasses (row col) (FilterVal.setF allowed) = true ↔
        (c.tag.getD c.text) ∈ allowed)) ∧
    (∀ col, (col, FilterVal.setF []) ∈ fs → shouldShow row fs = false) := by
  refine ⟨?_, ?_, ?_⟩
  · simp [shouldShow, List.all_eq_true]
  · intro col c allowed hcol
    cases allowed with
    | nil => simp [cellPasses, hcol]
    | cons a rest => simp [cellPasses, hcol]
  · intro col hmem
    have hfalse : cellPasses (row col) (FilterVal.setF []) = false := by
      cases h : row col <;> simp [cellPasses]
    cases hss : shouldShow row fs with
    | false => rfl
    | true =>
      have hall : ∀ cv ∈ fs, cellPasses (row cv.1) cv.2 = true := by
        simpa [shouldShow, List.all_eq_true] using hss
      have := hall (col, FilterVal.setF []) hmem
      simp [hfalse] at this

/-- C5 (witness): an empty allowed set on the source-file column hides a row
whose cell carries a full source path as its tag. -/
theorem filter_conjunction_and_set_membership_witness :
    shouldShow
      (fun col => if col = 4 then
        some ⟨"file.bundle", some "/data/src/file.bundle"⟩ else Option.none)
      [(4, FilterVal.setF [])] = false :=
  (filter_conjunction_and_set_membership
    (fun col => if col = 4 then
      some ⟨"file.bundle", some "/data/src/file.bundle"⟩ else Option.none)
    [(4, FilterVal.setF [])]).2.2 4 (by simp)

/-- C6: on a fresh record, two `get_preview` calls return the identical
cached result with no state change in between, and the underlying
`_obj.read()` happens exactly once across both; a successful edit clears the
`_preview_data` cache, and the next `get_preview` renders the new payload
rather than the stale cached one. -/
theorem preview_cached_once_invalidated_on_edit
    (render : ClassIDType → String → String) (s : AssetRec) (newData : String)
    (hp : s.preview = Option.none) (hr : s.readed = Option.none)
    (ht : s.obj_type = ClassIDType.textAsset) (he : s.is_editable = true) :
    (get_preview render ((get_preview render s).2)).1 =
      (get_preview render s).1 ∧
    (get_preview render ((get_preview render s).2)).2 =
      (get_preview render s).2 ∧
    (get_preview render s).2.decodes = s.decodes + 1 ∧
    (get_preview render ((get_preview render s).2)).2.decodes =
      s.decodes + 1 ∧
    (edit_data ((get_preview render s).2) newData true).1 =
      ResultStatus.complete ∧
    (edit_data ((get_preview render s).2) newData true).2.preview =
      Option.none ∧
    (get_preview render
      ((edit_data ((get_preview render s).2) newData true).2)).1 =
      render ClassIDType.textAsset newData := by
  obtain ⟨t, ed, pay, rd, pv, ch, dc⟩ := s
  simp only [AssetRec.preview] at hp
  simp only [AssetRec.readed] at hr
  simp only [AssetRec.obj_type] at ht
  simp only [AssetRec.is_editable] at he
  subst hp hr ht he
  simp [get_preview, getReadedData, edit_data]

/-- C6 (witness): the guarantee on a concrete freshly constructed TextAsset
record with payload "old", edited to "new". -/
theorem preview_cached_once_invalidated_on_edit_witness :
    (get_preview (fun _ p => p)
      (mkAssetRec ClassIDType.textAsset "old")).2.decodes = 1 ∧
    (get_preview (fun _ p => p)
      ((edit_data ((get_preview (fun _ p => p)
        (mkAssetRec ClassIDType.textAsset "old")).2) "new" true).2)).1 =
      "new" :=
  ⟨(preview_cached_once_invalidated_on_edit (fun _ p => p)
      (mkAssetRec ClassIDType.textAsset "old") "new"
      rfl rfl rfl (by decide)).2.2.1,
   (preview_cached_once_invalidated_on_edit (fun _ p => p)
      (mkAssetRec ClassIDType.textAsset "old") "new"
      rfl rfl rfl (by decide)).2.2.2.2.2.2⟩

/-- C7: for a record whose kind is neither Texture2D nor TextAsset (with
`is_editable` as `__init__` computes it), `edit_data` returns an UNSUPPORTED
outcome and leaves the dirty flag exactly as it was — it is never set to
true by such a call. -/
theorem edit_unsupported_kind_keeps_dirty (s : AssetRec) (newData : String)
    (loadOk : Bool)
    (hinv : s.is_editable = decide (s.obj_type ∈ availableAssetsForEdit))
    (h1 : s.obj_type ≠ ClassIDType.texture2D)
    (h2 : s.obj_type ≠ ClassIDType.textAsset) :
    (edit_data s newData loadOk).1 = ResultStatus.unsupported ∧
    (edit_data s newData loadOk).2.is_changed = s.is_changed := by
  have hmem : s.obj_type ∉ availableAssetsForEdit := by
    simp [availableAssetsForEdit, h1, h2]
  have hed : s.is_editable = false := by
    rw [hinv]
    exact decide_eq_false hmem
  exact ⟨by simp [edit_data, hed],
    by simp [edit_data, hed, getReadedData_is_changed]⟩

/-- C7 (witness): editing a record of an uneditable kind (UnityPy class id
43, not Texture2D/TextAsset) is UNSUPPORTED and keeps the dirty flag false. -/
theorem edit_unsupported_kind_keeps_dirty_witness :
    (edit_data (mkAssetRec (ClassIDType.other 43) "payload") "x" true).1 =
      ResultStatus.unsupported ∧
    (edit_data (mkAssetRec (ClassIDType.other 43) "payload") "x" true).2.is_changed =
      false :=
  ⟨(edit_unsupported_kind_keeps_dirty
      (mkAssetRec (ClassIDType.other 43) "payload") "x" true
      rfl (by decide) (by decide)).1,
   (edit_unsupported_kind_keeps_dirty
      (mkAssetRec (ClassIDType.other 43) "payload") "x" true
      rfl (by decide) (by decide)).2⟩

/-- C8: a save-all run persists exactly the files whose `is_changed` flag is
truthy (in order), and with zero dirty files it finishes successfully with
no file written, the "No changed files to save" message, and no error
emission. -/
theorem save_all_persists_exactly_changed (files : List BundleFile)
    (write : String → Option String) :
    ((∀ p ∈ (files.filter (fun f => f.is_changed = some true)).map
        (fun f => f.path), write p = Option.none) →
      (save_all_run files write).written =
        (files.filter (fun f => f.is_changed = some true)).map
          (fun f => f.path) ∧
      (save_all_run files write).success = true ∧
      (save_all_run files write).errorEmitted = Option.none) ∧
    (files.filter (fun f => f.is_changed = some true) = [] →
      save_all_run files write =
        ⟨[], true, "No changed files to save", Option.none⟩) := by
  constructor
  · intro hok
    by_cases hemp : (files.filter (fun f => f.is_changed = some true)).isEmpty
    · have h0 : files.filter (fun f => f.is_changed = some true) = [] :=
        List.isEmpty_iff.mp hemp
      refine ⟨?_, ?_, ?_⟩ <;> simp [save_all_run, hemp, h0]
    · have hemp' :
          (files.filter (fun f => f.is_changed = some true)).isEmpty =
            false := by
        simpa using hemp
      have hloop := saveWriteLoop_all_ok write
        ((files.filter (fun f => f.is_changed = some true)).map
          (fun f => f.path)) hok
      refine ⟨?_, ?_, ?_⟩ <;> simp [save_all_run, hemp', hloop]
  · intro h0
    simp [save_all_run, h0]

/-- C8 (witness): of three loaded files — one dirty, one clean, one without
an `is_changed` attribute — exactly the dirty one is written; and a run with
only clean files writes nothing and succeeds with the no-changed-files
message. -/
theorem save_all_persists_exactly_changed_witness :
    (save_all_run
      [⟨"a", some true⟩, ⟨"b", some false⟩, ⟨"c", Option.none⟩]
      (fun _ => Option.none)).written = ["a"] ∧
    save_all_run [⟨"b", some false⟩] (fun _ => Option.none) =
      ⟨[], true, "No changed files to save", Option.none⟩ :=
  ⟨((save_all_persists_exactly_changed
      [⟨"a", some true⟩, ⟨"b", some false⟩, ⟨"c", Option.none⟩]
      (fun _ => Option.none)).1 (by decide)).1,
   (save_all_persists_exactly_changed [⟨"b", some false⟩]
      (fun _ => Option.none)).2 (by decide)⟩

/-- C9: whenever the received IPC payload is not valid UTF-8, is malformed
JSON, or decodes to a non-array JSON value, the handler degrades to an empty
path list: it raises the activation event with the empty list and the
listener keeps running. -/
theorem ipc_malformed_degrades_to_empty (decodeUtf8 : List Nat → Option String)
    (parseJson : String → Option Json) (payload : List Nat)
    (h : ∀ s xs, decodeUtf8 payload = some s →
      parseJson s ≠ some (Json.arr xs)) :
    handle_connection decodeUtf8 parseJson true true payload =
      ⟨some [], true⟩ := by
  cases hd : decodeUtf8 payload with
  | none => simp [handle_connection, hd]
  | some s =>
    cases hpj : parseJson s with
    | none => simp [handle_connection, hd, hpj]
    | some j =>
      cases j with
      | arr xs => exact absurd hpj (h s xs hd)
      | null => simp [handle_connection, hd, hpj]
      | bool b => simp [handle_connection, hd, hpj]
      | num n => simp [handle_connection, hd, hpj]
      | str t => simp [handle_connection, hd, hpj]
      | obj fields => simp [handle_connection, hd, hpj]

/-- C9 (witness): a payload that decodes to text which is not valid JSON
degrades to the empty path list with the listener still running. -/
theorem ipc_malformed_degrades_to_empty_witness :
    handle_connection (fun _ => some "nonsense") (fun _ => Option.none)
      true true [1, 2, 3] = ⟨some [], true⟩ :=
  ipc_malformed_degrades_to_empty (fun _ => some "nonsense")
    (fun _ => Option.none) [1, 2, 3]
    (by intro s xs _; simp)

/-- C10: a file of at least 8 bytes whose first 7 bytes are not "UnityFS" is
skipped entirely — zero parse attempts, not loaded, no records contributed —
while a file shorter than 8 bytes bypasses the header check and reaches the
parse/trim loop (at least one parse attempt is made). -/
theorem header_check_skips_and_short_bypasses
    (parse : String → List Nat → Bool) (f : InFile) :
    (f.content.length ≥ 8 → f.content.take 7 ≠ unityFSHeader →
      (loadOneFile (parse f.path) f).1 = 0 ∧
      (loadOneFile (parse f.path) f).2 = false ∧
      load_files parse [f] = []) ∧
    (f.content.length < 8 →
      1 ≤ (loadOneFile (parse f.path) f).1) := by
  constructor
  · intro hlen hhdr
    have hc : f.content.length ≥ 8 ∧ f.content.take 7 ≠ unityFSHeader :=
      ⟨hlen, hhdr⟩
    have h2 : (loadOneFile (parse f.path) f).2 = false := by
      simp only [loadOneFile, if_pos hc]
    refine ⟨by simp only [loadOneFile, if_pos hc], h2, ?_⟩
    simp [load_files, h2]
  · intro hlen
    have hc : ¬(f.content.length ≥ 8 ∧ f.content.take 7 ≠ unityFSHeader) := by
      intro hand
      exact absurd hand.1 (by omega)
    have hone : loadOneFile (parse f.path) f =
        loadRetryLoop (parse f.path) f.content 0 100 := by
      simp only [loadOneFile, if_neg hc]
    rw [hone]
    exact loadRetryLoop_attempts_pos (parse f.path) f.content 0 99

/-- C10 (witness): an 8-byte non-UnityFS file is skipped with zero attempts
and no records; a 3-byte file reaches the parse loop. -/
theorem header_check_skips_and_short_bypasses_witness :
    (loadOneFile ((fun _ _ => false) "f")
      ⟨"f", [1, 2, 3, 4, 5, 6, 7, 8], ["r"]⟩).1 = 0 ∧
    load_files (fun _ _ => false)
      [⟨"f", [1, 2, 3, 4, 5, 6, 7, 8], ["r"]⟩] = [] ∧
    1 ≤ (loadOneFile ((fun _ _ => false) "g") ⟨"g", [1, 2, 3], []⟩).1 :=
  ⟨((header_check_skips_and_short_bypasses (fun _ _ => false)
      ⟨"f", [1, 2, 3, 4, 5, 6, 7, 8], ["r"]⟩).1 (by decide) (by decide)).1,
   ((header_check_skips_and_short_bypasses (fun _ _ => false)
      ⟨"f", [1, 2, 3, 4, 5, 6, 7, 8], ["r"]⟩).1 (by decide) (by decide)).2.2,
   (header_check_skips_and_short_bypasses (fun _ _ => false)
      ⟨"g", [1, 2, 3], []⟩).2 (by decide)⟩

end ABVME
